import Mathlib

/-!
Verification of the draft-synchronization core and the WhatsApp message handler
of the agentic-personal-assistance repository.

The reconciliation logic is embedded from the code excerpts in
`src/unnamed/part_001` (the `list_drafts_tool` / `select_draft_tool` sync blocks
of `email_tool.py`).  Python string truthiness (`a or b` keeps `a` unless it is
the empty string) is modelled by `strOr`.  The message handler is embedded from
`src/frontend/src/index.js` and the variant in `src/unnamed/part_000`.
-/

/-- A remote snapshot as returned by the Gmail fetcher:
`{'to_email': str, 'subject': str, 'body': str}`.  Missing headers are
normalized to the empty string by the fetcher, so every field is a `String`. -/
structure GmailContent where
  to_email : String
  subject : String
  body : String
deriving DecidableEq, Repr

/-- A local draft record (table `email_drafts`).  `gmail_draft_id` is the
optional remote reference; `status`, `expiry`, `created_at` are workflow
fields owned by the local side. -/
structure Draft where
  id : String
  owner : String
  gmail_draft_id : Option String
  to_email : String
  subject : String
  body : String
  status : String
  expiry : Nat
  created_at : Nat
deriving DecidableEq, Repr

/-- Python `a or b` on strings: `a` is falsy exactly when it is `""`
(a whitespace-only string is truthy). -/
def strOr (a b : String) : String :=
  if a = "" then b else a

/-- The three field updates of the sync block
(`src/unnamed/part_001` lines 67-69 and 93-95):
`draft.to_email = gmail_content['to_email'] or draft.to_email`, and likewise
for `subject` and `body`. -/
def syncDraftFields (d : Draft) (g : GmailContent) : Draft :=
  { d with
    to_email := strOr g.to_email d.to_email
    subject := strOr g.subject d.subject
    body := strOr g.body d.body }

/-- Reconciliation of one local record with a fetched snapshot
(`if gmail_content:` guard of the sync block).  The boolean is the code's
"synced" signal: it is what increments `synced_count` in `list_drafts_tool`,
and it is set whenever the fetch returned a snapshot, available snapshots
with identical content included. -/
def reconcile (d : Draft) (snap : Option GmailContent) : Draft × Bool :=
  match snap with
  | some g => (syncDraftFields d g, true)
  | none => (d, false)

/-- Which reference the loop fetches for a record: `if draft.gmail_draft_id:`
under Python truthiness, so `none` and `some ""` are both skipped. -/
def refToFetch (d : Draft) : Option String :=
  match d.gmail_draft_id with
  | some r => if r = "" then none else some r
  | none => none

/-- One iteration of the `list_drafts_tool` sync loop for a single record:
fetch when the reference is truthy, then apply the field updates when a
snapshot came back. -/
def syncOne (fetch : String → Option GmailContent) (d : Draft) : Draft × Bool :=
  match refToFetch d with
  | some ref => reconcile d (fetch ref)
  | none => (d, false)

/-- Observable outcome of a `list_drafts_tool` invocation: the records after
the sync loop, the `synced_count`, the references passed to
`_fetch_gmail_draft`, and the number of `db.commit()` calls. -/
structure ListResult where
  drafts : List Draft
  synced_count : Nat
  fetched : List String
  commits : Nat
deriving DecidableEq, Repr

/-- The sync loop of `list_drafts_tool` (`src/unnamed/part_001` lines 60-74):
for every draft with a truthy `gmail_draft_id`, fetch and apply the three
field updates, counting each successful fetch in `synced_count`; after the
loop, `db.commit()` exactly when `synced_count > 0`. -/
def list_drafts_tool (fetch : String → Option GmailContent) (ds : List Draft) :
    ListResult :=
  { drafts := ds.map (fun d => (syncOne fetch d).1)
    synced_count := (ds.filter (fun d => (syncOne fetch d).2)).length
    fetched := ds.filterMap refToFetch
    commits :=
      if 0 < (ds.filter (fun d => (syncOne fetch d).2)).length then 1 else 0 }

/-- Observable outcome of a `select_draft_tool` invocation on the record it
resolved. -/
structure SelectResult where
  draft : Draft
  commits : Nat
  fetched : List String
deriving DecidableEq, Repr

/-- Modelled from the spec: only the sync block of `select_draft_tool` appears
under src (`src/unnamed/part_001` lines 89-96); the surrounding commit step of
`email_tool.py` is missing, so it is taken from the spec's words, "commits
immediately if `changed`" with `changed` true iff a field actually differs.
The sync block itself is embedded from the source excerpt: fetch the truthy
reference and apply the three `or` field updates. -/
def select_draft_tool (fetch : String → Option GmailContent) (d : Draft) :
    SelectResult :=
  let r := syncOne fetch d
  { draft := r.1
    commits := if r.1 = d then 0 else 1
    fetched := (refToFetch d).toList }

/-- A decoded raw Gmail message: named headers and an optional text/plain
part (richer parts are never used for the body). -/
structure RawMessage where
  headers : List (String × String)
  textPlain : Option String
deriving DecidableEq, Repr

/-- The possible outcomes of the one network call `_fetch_gmail_draft`
performs: service unreachable / token failure, draft not found (deleted at
the remote end), malformed payload, or a decodable message. -/
inductive FetchOutcome where
  | unreachable
  | notFound
  | malformed
  | ok (msg : RawMessage)
deriving DecidableEq, Repr

/-- Header extraction by name; a missing header yields the empty string,
not a failure. -/
def headerValue (hs : List (String × String)) (name : String) : String :=
  match hs.find? (fun p => p.1 = name) with
  | some p => p.2
  | none => ""

/-- Modelled from the spec: the body of `_fetch_gmail_draft`
(`email_tool.py:1158-1223`) is not under src; `src/unnamed/part_001` lines
29-52 and 273-283 give only its signature, normalization steps and error
paths.  Per those: decode the raw message, extract the To and Subject
headers (absent header gives an empty value), prefer the text/plain body
part (none gives an empty body), and collapse every failure mode to `none`
instead of raising. -/
def _fetch_gmail_draft (outcome : FetchOutcome) : Option GmailContent :=
  match outcome with
  | .ok m =>
      some
        { to_email := headerValue m.headers "To"
          subject := headerValue m.headers "Subject"
          body := m.textPlain.getD "" }
  | .unreachable => none
  | .notFound => none
  | .malformed => none

/-- Whether a string is empty or consists only of whitespace; this is
`text.trim() === ''` expressed on the character data so that it evaluates
inside the kernel. -/
def isBlank (s : String) : Bool :=
  s.data.all (fun c => c.isWhitespace)

/-- The per-field rule exactly as the claim words it: the remote value
replaces the local value iff it is present and non-empty, where an empty or
whitespace-only string counts as empty. -/
def claimFieldMerge (remote loc : String) : String :=
  if isBlank remote then loc else remote

/-! ## WhatsApp message handler (frontend) -/

/-- The parts of an inbound WhatsApp message the handler inspects.
`mediaAvailable` models `downloadMedia()` returning a non-null media object
without throwing; `mediaMime` its mimetype. -/
structure Msg where
  fromId : String
  body : String
  isGroup : Bool
  broadcast : Bool
  fromMe : Bool
  hasMedia : Bool
  mediaAvailable : Bool
  mediaMime : String
deriving DecidableEq, Repr

/-- The externally visible effects of one `handleMessage` run: whether a
typing indicator was shown, whether a request was sent to the agent backend,
and how many replies were sent to the sender. -/
structure Effects where
  typing : Bool
  backendCalled : Bool
  replies : Nat
deriving DecidableEq, Repr

/-- No outward effect at all. -/
def noEffects : Effects :=
  { typing := false, backendCalled := false, replies := 0 }

/-- `userId.split('@')[0]`: the part of the user id before the first `@`
(the whole id when no `@` occurs), expressed on the character data so that
it evaluates inside the kernel. -/
def phoneOf (userId : String) : String :=
  String.mk (userId.data.takeWhile (fun c => c ≠ '@'))

/-- The document mimetypes `src/unnamed/part_000` forwards to the backend. -/
def supportedTypes : List String :=
  ["application/pdf",
   "application/vnd.openxmlformats-officedocument.wordprocessingml.document",
   "application/vnd.openxmlformats-officedocument.presentationml.presentation",
   "application/vnd.openxmlformats-officedocument.spreadsheetml.sheet",
   "application/vnd.ms-excel",
   "text/csv",
   "text/plain",
   "application/msword"]

/-- `handleMessage` of `src/frontend/src/index.js`: drop group, broadcast,
own and empty messages, then silently drop senders outside a non-empty
allowed-numbers list; otherwise show typing, call the backend once and send
exactly one reply (the agent response or the error text). -/
def handleMessage (allowed : List String) (m : Msg) : Effects :=
  if m.isGroup then noEffects
  else if m.fromId = "status@broadcast" then noEffects
  else if m.broadcast then noEffects
  else if m.fromMe then noEffects
  else if isBlank m.body then noEffects
  else if 0 < allowed.length ∧ phoneOf m.fromId ∉ allowed then noEffects
  else { typing := true, backendCalled := true, replies := 1 }

/-- `handleMessage` of `src/unnamed/part_000`: same gatekeeping, but the
access check precedes attachment handling; a supported attachment defaults
the text to a summarization prompt, an unsupported attachment with no text
is dropped, and the final empty-text check drops the rest. -/
def handleMessageV0 (allowed : List String) (m : Msg) : Effects :=
  if m.isGroup then noEffects
  else if m.fromId = "status@broadcast" then noEffects
  else if m.broadcast then noEffects
  else if m.fromMe then noEffects
  else if 0 < allowed.length ∧ phoneOf m.fromId ∉ allowed then noEffects
  else if m.hasMedia && m.mediaAvailable then
    if supportedTypes.contains m.mediaMime then
      { typing := true, backendCalled := true, replies := 1 }
    else if isBlank m.body then noEffects
    else { typing := true, backendCalled := true, replies := 1 }
  else if isBlank m.body then noEffects
  else { typing := true, backendCalled := true, replies := 1 }

/-! ## Concrete records used by counterexamples and witnesses -/

/-- A local draft with non-empty content and a remote reference. -/
def d1 : Draft :=
  { id := "draft-1", owner := "628118@c.us", gmail_draft_id := some "gid-1"
    to_email := "a@b.com", subject := "Meeting", body := "see you at 2 PM"
    status := "draft", expiry := 100, created_at := 50 }

/-- A local draft that was never published remotely. -/
def d2 : Draft :=
  { id := "draft-2", owner := "628118@c.us", gmail_draft_id := none
    to_email := "c@d.com", subject := "Hi", body := "hello"
    status := "draft", expiry := 100, created_at := 50 }

/-- A snapshot whose subject is whitespace-only. -/
def g1 : GmailContent :=
  { to_email := "a@b.com", subject := " ", body := "see you at 2 PM" }

/-- A snapshot identical to `d1`'s reconcilable fields. -/
def gSame : GmailContent :=
  { to_email := "a@b.com", subject := "Meeting", body := "see you at 2 PM" }

/-- A snapshot that changes `d1`'s subject only. -/
def g2 : GmailContent :=
  { to_email := "", subject := "Updated subject", body := "" }

/-- A fetcher for which every reference is unavailable. -/
def fetchNone : String → Option GmailContent :=
  fun _ => none

/-- A fetcher that always returns `d1`'s own content. -/
def fetchSame : String → Option GmailContent :=
  fun _ => some gSame

/-- A fetcher that always returns the subject-changing snapshot. -/
def fetchG2 : String → Option GmailContent :=
  fun _ => some g2

/-! ## Helper lemmas -/

theorem strOr_idem (a b : String) : strOr a (strOr a b) = strOr a b := by
  unfold strOr
  by_cases h : a = "" <;> simp [h]

theorem syncDraftFields_idem (d : Draft) (g : GmailContent) :
    syncDraftFields (syncDraftFields d g) g = syncDraftFields d g := by
  simp [syncDraftFields, strOr_idem]

/-! ## Claim theorems -/

/-- C1, counterexample: the claim lets a whitespace-only remote value count
as empty, but the code's Python `or` keeps any non-empty string, so a
whitespace-only remote subject overwrites the non-empty local subject
instead of retaining it as `claimFieldMerge` predicts. -/
theorem reconcile_whitespace_wins_cex :
    (reconcile d1 (some g1)).1.subject = " " ∧
    claimFieldMerge g1.subject d1.subject = "Meeting" ∧
    (" " : String) ≠ "Meeting" := by
  refine ⟨by decide, by decide, by decide⟩

/-- C1 (amended): for every local record and available snapshot, each of the
three reconcilable fields is replaced by the remote value iff that value is a
non-empty string, where only the genuinely empty string counts as empty — a
whitespace-only remote value is treated as present and replaces the local
value; otherwise the local value is retained unchanged. -/
theorem reconcile_nonempty_wins_per_field (d : Draft) (g : GmailContent) :
    (reconcile d (some g)).1.to_email
        = (if g.to_email = "" then d.to_email else g.to_email) ∧
    (reconcile d (some g)).1.subject
        = (if g.subject = "" then d.subject else g.subject) ∧
    (reconcile d (some g)).1.body
        = (if g.body = "" then d.body else g.body) := by
  refine ⟨?_, ?_, ?_⟩ <;> simp [reconcile, syncDraftFields, strOr]

/-- C2: for every local record and every snapshot-or-unavailable input,
reconciliation leaves `status`, `expiry`, `created_at`, `id`, `owner` and
the remote reference `gmail_draft_id` identical before and after. -/
theorem reconcile_preserves_protected_fields (d : Draft)
    (snap : Option GmailContent) :
    (reconcile d snap).1.status = d.status ∧
    (reconcile d snap).1.expiry = d.expiry ∧
    (reconcile d snap).1.created_at = d.created_at ∧
    (reconcile d snap).1.id = d.id ∧
    (reconcile d snap).1.owner = d.owner ∧
    (reconcile d snap).1.gmail_draft_id = d.gmail_draft_id := by
  cases snap <;> simp [reconcile, syncDraftFields]

/-- C4, counterexample: a successful fetch whose content coincides with the
local record leaves the record unchanged yet still reports the flag that
increments `synced_count` as true, where the claim demands false. -/
theorem changed_true_without_diff_cex :
    reconcile d1 (some gSame) = (d1, true) := by
  decide

/-- C4 (amended): the flag reported by reconciliation equals availability of
the snapshot — it is true for every successful fetch, including one whose
merged result equals the prior local record, and false only when the
snapshot is unavailable; it does not test whether any field differs. -/
theorem changed_flag_eq_snapshot_available (d : Draft)
    (snap : Option GmailContent) :
    (reconcile d snap).2 = snap.isSome := by
  cases snap <;> rfl

/-- C6, counterexample: applying reconcile twice with the same available
snapshot yields the same record, but the second application still reports
the changed flag as true, where the claim demands false. -/
theorem second_reconcile_reports_changed_cex :
    reconcile (reconcile d1 (some g2)).1 (some g2)
      = ((reconcile d1 (some g2)).1, true) := by
  decide

/-- C6 (amended): reconciliation is idempotent on the record — applying it
twice in a row with the same snapshot yields the same record as applying it
once — but the second application reports the changed flag true again
whenever the snapshot is available (the flag signals a successful fetch,
not a difference), and false only for an unavailable snapshot. -/
theorem reconcile_idempotent_record (d : Draft) (snap : Option GmailContent) :
    reconcile (reconcile d snap).1 snap = ((reconcile d snap).1, snap.isSome) := by
  cases snap with
  | none => rfl
  | some g => simp [reconcile, syncDraftFields_idem]

theorem refToFetch_eq_some (d : Draft) (r : String) :
    refToFetch d = some r ↔ d.gmail_draft_id = some r ∧ r ≠ "" := by
  unfold refToFetch
  cases h : d.gmail_draft_id with
  | none => simp
  | some s =>
      by_cases hs : s = ""
      · subst hs
        constructor
        · intro heq
          simp at heq
        · rintro ⟨h1, h2⟩
          injection h1 with h3
          exact absurd h3.symm h2
      · simp only [if_neg hs]
        constructor
        · intro heq
          injection heq with h2
          subst h2
          exact ⟨rfl, hs⟩
        · rintro ⟨h1, _⟩
          exact h1

theorem syncOne_snd_iff (fetch : String → Option GmailContent) (d : Draft) :
    (syncOne fetch d).2 = true ↔
      ∃ ref, refToFetch d = some ref ∧ (fetch ref).isSome := by
  unfold syncOne
  cases hr : refToFetch d with
  | none => simp
  | some ref =>
      cases hf : fetch ref <;> simp [reconcile, hf]

theorem filter_length_pos_iff {α : Type} (p : α → Bool) (l : List α) :
    0 < (l.filter p).length ↔ ∃ a ∈ l, p a := by
  induction l with
  | nil => simp
  | cons a l ih =>
      by_cases hp : p a <;> simp [List.filter_cons, hp, ih]

/-- C3: reconciling with an unavailable snapshot returns the local record
unchanged with the flag false, and when every fetch is unavailable the
surrounding List and Select operations still succeed with the local data:
the records come back as they were and no commit happens; unavailability is
never surfaced as an error. -/
theorem unavailable_is_full_noop (fetch : String → Option GmailContent)
    (d : Draft) (ds : List Draft) (h : ∀ r, fetch r = none) :
    reconcile d none = (d, false) ∧
    (list_drafts_tool fetch ds).drafts = ds ∧
    (list_drafts_tool fetch ds).commits = 0 ∧
    (select_draft_tool fetch d).draft = d ∧
    (select_draft_tool fetch d).commits = 0 := by
  have h1 : ∀ d' : Draft, syncOne fetch d' = (d', false) := by
    intro d'
    unfold syncOne
    cases hr : refToFetch d' <;> simp [h, reconcile]
  refine ⟨rfl, ?_, ?_, ?_, ?_⟩
  · simp [list_drafts_tool, h1]
  · simp [list_drafts_tool, h1]
  · simp [select_draft_tool, h1]
  · simp [select_draft_tool, h1]

/-- C3 witness: with a fetcher that is unavailable everywhere, List over two
records and Select on one succeed and change nothing. -/
theorem unavailable_is_full_noop_witness :
    (∀ r, fetchNone r = none) ∧
    (reconcile d1 none = (d1, false) ∧
     (list_drafts_tool fetchNone [d1, d2]).drafts = [d1, d2] ∧
     (list_drafts_tool fetchNone [d1, d2]).commits = 0 ∧
     (select_draft_tool fetchNone d1).draft = d1 ∧
     (select_draft_tool fetchNone d1).commits = 0) :=
  ⟨fun _ => rfl, unavailable_is_full_noop fetchNone d1 [d1, d2] (fun _ => rfl)⟩

/-- C5: a record whose remote reference is unset or empty is skipped by the
sync loop: no fetch is performed for it, it is passed through byte-for-byte
unchanged, and the flag that would count it as synced stays false. -/
theorem missing_reference_noop (fetch : String → Option GmailContent)
    (d : Draft) (h : d.gmail_draft_id = none ∨ d.gmail_draft_id = some "") :
    refToFetch d = none ∧
    syncOne fetch d = (d, false) ∧
    (list_drafts_tool fetch [d]).fetched = [] ∧
    (list_drafts_tool fetch [d]).drafts = [d] ∧
    (list_drafts_tool fetch [d]).commits = 0 := by
  have hr : refToFetch d = none := by
    rcases h with h | h <;> simp [refToFetch, h]
  have h1 : syncOne fetch d = (d, false) := by
    unfold syncOne
    simp [hr]
  refine ⟨hr, h1, ?_, ?_, ?_⟩
  · simp [list_drafts_tool, hr]
  · simp [list_drafts_tool, h1]
  · simp [list_drafts_tool, h1]

/-- C5 witness: a never-published record is skipped whole. -/
theorem missing_reference_noop_witness :
    (d2.gmail_draft_id = none ∨ d2.gmail_draft_id = some "") ∧
    (refToFetch d2 = none ∧
     syncOne fetchSame d2 = (d2, false) ∧
     (list_drafts_tool fetchSame [d2]).fetched = [] ∧
     (list_drafts_tool fetchSame [d2]).drafts = [d2] ∧
     (list_drafts_tool fetchSame [d2]).commits = 0) :=
  ⟨Or.inl rfl, missing_reference_noop fetchSame d2 (Or.inl rfl)⟩

/-- C7, counterexample: a List over one record whose fetch succeeds with
content identical to the local record changes no record, yet `db.commit()`
is still called once — the commit is keyed on `synced_count`, not on any
record actually changing, so "commit iff at least one record changed" fails. -/
theorem commit_without_change_cex :
    (list_drafts_tool fetchSame [d1]).drafts = [d1] ∧
    (list_drafts_tool fetchSame [d1]).commits = 1 := by
  refine ⟨by decide, by decide⟩

/-- C7 (amended): a List invocation fetches exactly the records with a
present non-empty remote reference, performs at most one commit, and that
commit occurs iff at least one fetch returned an available snapshot — even
one whose merged result equals the prior record. -/
theorem list_single_commit_iff_fetch_available
    (fetch : String → Option GmailContent) (ds : List Draft) :
    (∀ r : String, r ∈ (list_drafts_tool fetch ds).fetched ↔
        ∃ d ∈ ds, d.gmail_draft_id = some r ∧ r ≠ "") ∧
    (list_drafts_tool fetch ds).commits ≤ 1 ∧
    ((list_drafts_tool fetch ds).commits = 1 ↔
        ∃ d ∈ ds, ∃ ref, refToFetch d = some ref ∧ (fetch ref).isSome) := by
  refine ⟨?_, ?_, ?_⟩
  · intro r
    simp only [list_drafts_tool, List.mem_filterMap]
    constructor
    · rintro ⟨d, hd, href⟩
      exact ⟨d, hd, (refToFetch_eq_some d r).mp href⟩
    · rintro ⟨d, hd, href⟩
      exact ⟨d, hd, (refToFetch_eq_some d r).mpr href⟩
  · simp only [list_drafts_tool]
    split <;> simp
  · have hc : (list_drafts_tool fetch ds).commits = 1 ↔
        0 < (ds.filter (fun d => (syncOne fetch d).2)).length := by
      simp only [list_drafts_tool]
      split <;> simp [*]
    rw [hc, filter_length_pos_iff]
    constructor
    · rintro ⟨d, hd, hp⟩
      exact ⟨d, hd, (syncOne_snd_iff fetch d).mp hp⟩
    · rintro ⟨d, hd, hp⟩
      exact ⟨d, hd, (syncOne_snd_iff fetch d).mpr hp⟩

theorem syncOne_eq_of_ref (fetch : String → Option GmailContent) (d : Draft)
    (ref : String) (h : refToFetch d = some ref) :
    syncOne fetch d = reconcile d (fetch ref) := by
  unfold syncOne
  rw [h]

theorem syncOne_gmail_id (fetch : String → Option GmailContent) (d : Draft) :
    ((syncOne fetch d).1).gmail_draft_id = d.gmail_draft_id := by
  unfold syncOne
  cases hr : refToFetch d with
  | none => rfl
  | some ref => cases hf : fetch ref <;> simp [reconcile, hf, syncDraftFields]

theorem refToFetch_congr (d e : Draft) (h : d.gmail_draft_id = e.gmail_draft_id) :
    refToFetch d = refToFetch e := by
  unfold refToFetch
  rw [h]

/-- C8: a Select invocation on a resolved record with a present non-empty
remote reference fetches exactly that reference, returns the record merged
with the fetched snapshot, commits exactly once when the merged record
differs from the stored one and not at all when it is identical, and — even
when the record it receives is the output of an immediately preceding List
pass over the same fetcher — it fetches the reference again and returns the
same merged record. -/
theorem select_refetches_and_commits (fetch : String → Option GmailContent)
    (d : Draft) (ref : String) (h1 : d.gmail_draft_id = some ref)
    (h2 : ref ≠ "") :
    (select_draft_tool fetch d).fetched = [ref] ∧
    (select_draft_tool fetch d).draft = (reconcile d (fetch ref)).1 ∧
    ((select_draft_tool fetch d).draft ≠ d →
        (select_draft_tool fetch d).commits = 1) ∧
    ((select_draft_tool fetch d).draft = d →
        (select_draft_tool fetch d).commits = 0) ∧
    (select_draft_tool fetch ((syncOne fetch d).1)).fetched = [ref] ∧
    (select_draft_tool fetch ((syncOne fetch d).1)).draft
      = (select_draft_tool fetch d).draft := by
  have hr : refToFetch d = some ref := by
    simp [refToFetch, h1, h2]
  have hsync : syncOne fetch d = reconcile d (fetch ref) :=
    syncOne_eq_of_ref fetch d ref hr
  have hr2 : refToFetch ((syncOne fetch d).1) = some ref :=
    (refToFetch_congr _ d (syncOne_gmail_id fetch d)).trans hr
  have hsync2 : syncOne fetch ((syncOne fetch d).1)
      = reconcile ((syncOne fetch d).1) (fetch ref) :=
    syncOne_eq_of_ref fetch _ ref hr2
  refine ⟨?_, ?_, ?_, ?_, ?_, ?_⟩
  · simp [select_draft_tool, hr]
  · simp [select_draft_tool, hsync]
  · intro hne
    have hx : (syncOne fetch d).1 ≠ d := by
      simpa [select_draft_tool] using hne
    simp [select_draft_tool, hx]
  · intro heq
    have hx : (syncOne fetch d).1 = d := by
      simpa [select_draft_tool] using heq
    simp [select_draft_tool, hx]
  · simp [select_draft_tool, hr2]
  · show (syncOne fetch ((syncOne fetch d).1)).1 = (syncOne fetch d).1
    rw [hsync2, hsync]
    cases hf : fetch ref <;> simp [reconcile, syncDraftFields_idem]

/-- C8 witness: selecting a record with a published reference under a fetcher
that changes its subject fetches that reference, returns the merged record,
commits once, and gives the same record when run on the output of a prior
List-style sync. -/
theorem select_refetches_and_commits_witness :
    d1.gmail_draft_id = some "gid-1" ∧ ("gid-1" : String) ≠ "" ∧
    (select_draft_tool fetchG2 d1).fetched = ["gid-1"] ∧
    (select_draft_tool fetchG2 d1).draft = (reconcile d1 (fetchG2 "gid-1")).1 ∧
    (select_draft_tool fetchG2 d1).draft ≠ d1 ∧
    (select_draft_tool fetchG2 d1).commits = 1 ∧
    (select_draft_tool fetchG2 ((syncOne fetchG2 d1).1)).draft
      = (select_draft_tool fetchG2 d1).draft := by
  have h := select_refetches_and_commits fetchG2 d1 "gid-1" rfl (by decide)
  exact ⟨rfl, by decide, h.1, h.2.1, by decide, h.2.2.1 (by decide),
    h.2.2.2.2.2⟩

/-- An entirely empty decoded message: no headers and no text/plain part. -/
def emptyMsg : RawMessage :=
  { headers := [], textPlain := none }

/-- C9: for every fetch outcome the fetcher returns either a normalized
snapshot or the explicit unavailable result and nothing else: a decodable
message always yields the snapshot built from its To and Subject headers and
its text/plain part, every failure mode yields `none`, and the message with
no headers and no text part still yields the successful all-empty snapshot,
which is distinct from unavailable. -/
theorem fetch_gmail_draft_contract (m : RawMessage) :
    _fetch_gmail_draft (.ok m)
      = some
          { to_email := headerValue m.headers "To"
            subject := headerValue m.headers "Subject"
            body := m.textPlain.getD "" } ∧
    _fetch_gmail_draft .unreachable = none ∧
    _fetch_gmail_draft .notFound = none ∧
    _fetch_gmail_draft .malformed = none ∧
    _fetch_gmail_draft (.ok emptyMsg)
      = some { to_email := "", subject := "", body := "" } ∧
    some { to_email := "", subject := "", body := "" }
      ≠ (none : Option GmailContent) := by
  exact ⟨rfl, rfl, rfl, rfl, rfl, by simp⟩

/-- C10: when the allowed-numbers list is non-empty and the part of the
sender id before the `@` is not in it, both versions of the message handler
finish without showing a typing indicator, without calling the agent
backend, and without sending any reply. -/
theorem unauthorized_sender_silently_ignored (allowed : List String)
    (m : Msg) (h1 : allowed ≠ []) (h2 : phoneOf m.fromId ∉ allowed) :
    handleMessage allowed m = noEffects ∧
    handleMessageV0 allowed m = noEffects := by
  have hp : 0 < allowed.length ∧ phoneOf m.fromId ∉ allowed :=
    ⟨List.length_pos.mpr h1, h2⟩
  constructor
  · unfold handleMessage
    split_ifs <;> first | rfl | exact absurd hp (by assumption)
  · unfold handleMessageV0
    split_ifs <;> first | rfl | exact absurd hp (by assumption)

/-- The restricted allowed-numbers configuration used by the C10 witness. -/
def allowed0 : List String :=
  ["628118491177"]

/-- An inbound non-group text message from a number outside `allowed0`. -/
def mUnauth : Msg :=
  { fromId := "999555@c.us", body := "hello", isGroup := false
    broadcast := false, fromMe := false, hasMedia := false
    mediaAvailable := false, mediaMime := "" }

/-- C10 witness: a concrete unauthorized sender is silently ignored by both
handler versions. -/
theorem unauthorized_sender_silently_ignored_witness :
    allowed0 ≠ [] ∧ phoneOf mUnauth.fromId ∉ allowed0 ∧
    handleMessage allowed0 mUnauth = noEffects ∧
    handleMessageV0 allowed0 mUnauth = noEffects := by
  have h := unauthorized_sender_silently_ignored allowed0 mUnauth
    (by decide) (by decide)
  exact ⟨by decide, by decide, h.1, h.2⟩
